import Mathlib

/-!
Shallow embedding of the talkus-backend core (Go): the Post controller
(`internal/controllers/post_controller.go`), the Post use case
(`internal/usecases/post_usecase.go`) and the User use case
(`internal/usecases/user_usecase.go`).

External collaborators (the post/user repositories and the Cloudinary
uploader) are modelled as function-valued parameters gathered in a
`Collaborators` record; each handler/use case returns its result together
with a trace of collaborator calls (`List Event`), so that statements of
the form "the repository is never invoked" or "the call receives this
context" are expressible.  Go errors are modelled as `String` (the value
of `err.Error()`); a fallible Go call returning `(T, error)` becomes
`Except String T`.
-/

/-- Model of `context.Context` as used by the code: either the fresh
`context.Background()` made in `GetAll` (line 36), or a request's own
context `r.Context()`, identified by a tag. -/
inductive GoContext where
  | background
  | request (tag : Nat)
  deriving DecidableEq

/-- Modelled from the spec: the `models.Post` struct (package
`internal/models` is not under src/).  Its fields are the ones the
controller sets (lines 105-114) and the spec's data-model section lists:
`Title`, `Content`, `ImageURL`, `Likes`, `Dislikes`, `IsFlagged`,
`CreatedAt`, `UpdatedAt`, plus the identifier assigned by the persistence
collaborator.  Timestamps (`time.Time`) are modelled as `Nat` instants. -/
structure Post where
  id : String
  title : String
  content : String
  imageURL : String
  likes : Int
  dislikes : Int
  isFlagged : Bool
  createdAt : Nat
  updatedAt : Nat
  deriving DecidableEq

/-- Model of the file handle returned by `r.FormFile("image")`: just the
file content, abstractly. -/
structure FileData where
  bytes : String
  deriving DecidableEq

/-- Model of `uploader.UploadParams` as built at lines 90-94: `Folder`,
`PublicID`, and the `Overwrite *bool` pointer (`none` = nil pointer). -/
structure UploadParams where
  folder : String
  publicID : String
  overwrite : Option Bool
  deriving DecidableEq

/-- Model of the Cloudinary upload result: the `SecureURL` field used at
line 100. -/
structure UploadResult where
  secureURL : String
  deriving DecidableEq

/-- Model of `map[string]interface{}` returned by the user repository:
an open field-value mapping. -/
def UserMap : Type := List (String × String)

instance : DecidableEq UserMap := by
  unfold UserMap
  infer_instance

/-- One collaborator call made by the core, recorded in call order. -/
inductive Event where
  | parseForm (maxMemory : Nat)
  | uploadCall (ctx : GoContext) (params : UploadParams)
  | repoCreateCall (ctx : GoContext) (post : Post)
  | repoGetAllCall (ctx : GoContext)
  | getUserByIDCall (ctx : GoContext) (id : String)
  | logLine (msg : String)
  deriving DecidableEq

/-- The external collaborators, as the behaviours the core observes:
`upload` is `cld.Upload.Upload`, `repoCreate` is the post repository's
`Create` (which mutates the passed-in post in place — modelled as
returning the mutated post — and returns an optional error), `repoGetAll`
is the post repository's `GetAll`, `getUserByID` is the user repository's
`GetUserByID`. -/
structure Collaborators where
  upload : GoContext → FileData → UploadParams → Except String UploadResult
  repoCreate : GoContext → Post → Post × Option String
  repoGetAll : GoContext → Except String (List Post)
  getUserByID : GoContext → String → Except String UserMap

/-- Model of one incoming HTTP request as the controller observes it:
the `Content-Type` header, the behaviour of `ParseMultipartForm` as a
function of the max-memory argument, the values `FormValue` yields for
`title` and `content`, the result of `FormFile("image")`, the request's
own context `r.Context()`, and the two successive `time.Now()` reads
(line 92's `.Unix()` seconds and line 104's instant). -/
structure HttpRequest where
  contentType : String
  parseMultipartForm : Nat → Except String Unit
  title : String
  content : String
  formFileImage : Except String FileData
  ctx : GoContext
  unixNow : Int
  now : Nat

/-- An HTTP response: status code and body text (`http.Error` writes the
message followed by a newline; JSON encoders also end with a newline). -/
structure Response where
  status : Nat
  body : String
  deriving DecidableEq

/-- Model of Go `strings.HasPrefix s p` (is `p` a prefix of `s`). -/
def goStartsWith (s p : String) : Bool :=
  List.isPrefixOf p.data s.data

/-- A crude model of `json.NewEncoder(w).Encode(post)`: the serialized
Post object (no trailing newline; callers add it). -/
def encodePost (p : Post) : String :=
  "\x7b\"id\":\"" ++ p.id ++ "\",\"Title\":\"" ++ p.title ++
    "\",\"Content\":\"" ++ p.content ++ "\",\"ImageURL\":\"" ++ p.imageURL ++
    "\",\"Likes\":" ++ toString p.likes ++ ",\"Dislikes\":" ++
    toString p.dislikes ++ ",\"IsFlagged\":" ++
    (if p.isFlagged then "true" else "false") ++ ",\"CreatedAt\":" ++
    toString p.createdAt ++ ",\"UpdatedAt\":" ++ toString p.updatedAt ++ "\x7d"

/-- JSON encoding of a list of posts. -/
def encodePosts (ps : List Post) : String :=
  "[" ++ String.intercalate "," (ps.map encodePost) ++ "]"

/-- `PostUsecase.CreatePost` (post_usecase.go lines 21-26): delegates to
the repository's `Create`; on repository error returns `(nil, err)`
— the error verbatim; on success returns the same, now repository-mutated,
post and a nil error. -/
def PostUsecase.CreatePost (env : Collaborators) (ctx : GoContext) (p : Post) :
    Except String Post × List Event :=
  let r := env.repoCreate ctx p
  match r.2 with
  | some e => (Except.error e, [Event.repoCreateCall ctx p])
  | none => (Except.ok r.1, [Event.repoCreateCall ctx p])

/-- `PostUsecase.GetAllPosts` (post_usecase.go lines 17-19):
unconditional delegation to the repository's `GetAll`. -/
def PostUsecase.GetAllPosts (env : Collaborators) (ctx : GoContext) :
    Except String (List Post) × List Event :=
  (env.repoGetAll ctx, [Event.repoGetAllCall ctx])

/-- `UserUsecase.GetUser` (user_usecase.go lines 19-29): empty id fails
immediately with the missing-parameter error and no repository call; any
repository error is collapsed into the fixed "usuario no encontrado"
message. -/
def UserUsecase.GetUser (env : Collaborators) (ctx : GoContext)
    (userID : String) : Except String UserMap × List Event :=
  if userID = "" then
    (Except.error "falta el par\xe1metro \x27id\x27", [])
  else
    match env.getUserByID ctx userID with
    | Except.error _ =>
        (Except.error "usuario no encontrado", [Event.getUserByIDCall ctx userID])
    | Except.ok u => (Except.ok u, [Event.getUserByIDCall ctx userID])

/-- The Post value the controller constructs at lines 104-114: the two
form fields, the image URL decided by the image step, zeroed counters,
unflagged, and the same `time.Now()` instant for both timestamps (the id
is left for the repository to assign). -/
def mkPost (r : HttpRequest) (imageURL : String) : Post :=
  ⟨"", r.title, r.content, imageURL, 0, 0, false, r.now, r.now⟩

/-- The upload parameters built at lines 90-94: fixed folder
`posts_images`, public id `post_<unix seconds>`, overwrite set true. -/
def mkUploadParams (r : HttpRequest) : UploadParams :=
  ⟨"posts_images", "post_" ++ toString r.unixNow, some true⟩

/-- Tail of the Create flow (post_controller.go lines 103-127): build the
Post with the current instant for both timestamps and zeroed counters,
persist via the use case; on failure log and answer a generic 500; on
success answer 201 with the persisted entity. `evs` is the trace
accumulated so far, `imageURL` the URL decided by the image step. -/
def PostController.finishCreate (env : Collaborators) (r : HttpRequest)
    (imageURL : String) (evs : List Event) : Response × List Event :=
  let post : Post := mkPost r imageURL
  let res := PostUsecase.CreatePost env r.ctx post
  match res.1 with
  | Except.error e =>
      (⟨500, "No se pudo crear el post\n"⟩,
        evs ++ res.2 ++ [Event.logLine ("Error creando post: " ++ e)])
  | Except.ok created =>
      (⟨201, encodePost created ++ "\n"⟩, evs ++ res.2)

/-- The max-memory argument the controller passes to
`ParseMultipartForm` at line 72: `10 << 20` bytes, i.e. 10 MiB. -/
def maxMultipartMemory : Nat := 10 <<< 20

/-- `PostController.Create` (post_controller.go lines 65-128): check the
content type, parse the multipart form with max memory `10 << 20`, read
`title` and `content`, optionally upload the `image` part (any
`FormFile` error silently skips the upload), then build and persist the
post. -/
def PostController.Create (env : Collaborators) (r : HttpRequest) :
    Response × List Event :=
  if goStartsWith r.contentType "multipart/form-data" then
    match r.parseMultipartForm maxMultipartMemory with
    | Except.error e =>
        (⟨400, "Error parsing form: " ++ e ++ "\n"⟩,
          [Event.parseForm maxMultipartMemory])
    | Except.ok _ =>
        if r.title = "" ∨ r.content = "" then
          (⟨400, "title y content son obligatorios\n"⟩,
            [Event.parseForm maxMultipartMemory])
        else
          match r.formFileImage with
          | Except.ok f =>
              match env.upload r.ctx f (mkUploadParams r) with
              | Except.error e =>
                  (⟨500, "Error subiendo imagen: " ++ e ++ "\n"⟩,
                    [Event.parseForm maxMultipartMemory,
                      Event.uploadCall r.ctx (mkUploadParams r)])
              | Except.ok res =>
                  PostController.finishCreate env r res.secureURL
                    [Event.parseForm maxMultipartMemory,
                      Event.uploadCall r.ctx (mkUploadParams r)]
          | Except.error _ =>
              PostController.finishCreate env r ""
                [Event.parseForm maxMultipartMemory]
  else
    (⟨400, "Content-Type debe ser multipart/form-data\n"⟩, [])

/-- `PostController.GetAll` (post_controller.go lines 35-51): makes a
fresh `context.Background()`, delegates to the use case; on failure logs
and answers a generic 500 JSON object; on success answers 200 with the
list. -/
def PostController.GetAll (env : Collaborators) (_r : HttpRequest) :
    Response × List Event :=
  let ctx := GoContext.background
  let res := PostUsecase.GetAllPosts env ctx
  match res.1 with
  | Except.error e =>
      (⟨500, "\x7b\"error\":\"Error interno del servidor\"\x7d\n"⟩,
        res.2 ++ [Event.logLine ("Error obteniendo posts: " ++ e)])
  | Except.ok posts => (⟨200, encodePosts posts ++ "\n"⟩, res.2)

/-- The posts handed to the post repository's `Create`, in call order. -/
def createdPosts (es : List Event) : List Post :=
  es.filterMap fun e =>
    match e with
    | Event.repoCreateCall _ p => some p
    | _ => none

/-- The contexts handed to the upload collaborator, in call order. -/
def uploadCtxs (es : List Event) : List GoContext :=
  es.filterMap fun e =>
    match e with
    | Event.uploadCall c _ => some c
    | _ => none

/-- The contexts handed to the post repository's `Create`, in call order. -/
def createCtxs (es : List Event) : List GoContext :=
  es.filterMap fun e =>
    match e with
    | Event.repoCreateCall c _ => some c
    | _ => none

/-- The contexts handed to the post repository's `GetAll`, in call order. -/
def getAllCtxs (es : List Event) : List GoContext :=
  es.filterMap fun e =>
    match e with
    | Event.repoGetAllCall c => some c
    | _ => none

/-- The max-memory arguments handed to `ParseMultipartForm`, in call
order. -/
def parseSizes (es : List Event) : List Nat :=
  es.filterMap fun e =>
    match e with
    | Event.parseForm n => some n
    | _ => none

/-- The ids handed to the user repository's `GetUserByID`, in call
order. -/
def userLookups (es : List Event) : List String :=
  es.filterMap fun e =>
    match e with
    | Event.getUserByIDCall _ i => some i
    | _ => none

/-- The lines written to the server log, in order. -/
def loggedLines (es : List Event) : List String :=
  es.filterMap fun e =>
    match e with
    | Event.logLine m => some m
    | _ => none

/-- Concrete collaborators for test scenarios: upload succeeds with a
fixed secure URL, the post repository assigns id `p1` and succeeds, the
user repository returns a one-field user. -/
def collabOK : Collaborators :=
  ⟨fun _ _ _ => Except.ok ⟨"https://res.example/secure.png"⟩,
    fun _ p =>
      (⟨"p1", p.title, p.content, p.imageURL, p.likes, p.dislikes,
          p.isFlagged, p.createdAt, p.updatedAt⟩, none),
    fun _ => Except.ok [],
    fun _ _ => Except.ok [("name", "Ana")]⟩

/-- Collaborators whose repositories all fail with a fixed error. -/
def collabRepoFail : Collaborators :=
  ⟨fun _ _ _ => Except.ok ⟨"https://res.example/secure.png"⟩,
    fun _ p => (p, some "pq: connection refused"),
    fun _ => Except.error "pq: connection refused",
    fun _ _ => Except.error "sql: no rows in result set"⟩

/-- Collaborators whose upload fails with the error message `disk full`. -/
def collabUploadFullDisk : Collaborators :=
  ⟨fun _ _ _ => Except.error "disk full",
    fun _ p => (p, none),
    fun _ => Except.ok [],
    fun _ _ => Except.ok []⟩

/-- Collaborators whose upload fails with the error message `timeout`. -/
def collabUploadTimeout : Collaborators :=
  ⟨fun _ _ _ => Except.error "timeout",
    fun _ p => (p, none),
    fun _ => Except.ok [],
    fun _ _ => Except.ok []⟩

/-- A well-formed create request carrying no image part: `FormFile`
fails with Go's missing-file error. -/
def reqNoImage : HttpRequest :=
  ⟨"multipart/form-data; boundary=xyz", fun _ => Except.ok (), "Hello",
    "World", Except.error "http: no such file", GoContext.request 7,
    1700000000, 42⟩

/-- A well-formed create request carrying an image part. -/
def reqWithImage : HttpRequest :=
  ⟨"multipart/form-data; boundary=xyz", fun _ => Except.ok (), "Hello",
    "World", Except.ok ⟨"png-bytes"⟩, GoContext.request 7, 1700000000, 42⟩

/-- A create request with an empty `title` field. -/
def reqEmptyTitle : HttpRequest :=
  ⟨"multipart/form-data; boundary=xyz", fun _ => Except.ok (), "",
    "World", Except.error "http: no such file", GoContext.request 7,
    1700000000, 42⟩

/-- A multipart create request whose form data fails to parse. -/
def reqBadParse : HttpRequest :=
  ⟨"multipart/form-data; boundary=xyz",
    fun _ => Except.error "multipart: NextPart: EOF", "Hello", "World",
    Except.error "http: no such file", GoContext.request 7, 1700000000, 42⟩

/-- Unfolding lemma: the tail of the Create flow answers 500 and logs
when the repository's `Create` fails, and answers 201 with the
repository-populated post otherwise. -/
theorem finishCreate_eq (env : Collaborators) (r : HttpRequest)
    (url : String) (evs : List Event) :
    PostController.finishCreate env r url evs =
      match (env.repoCreate r.ctx (mkPost r url)).2 with
      | some e =>
          (⟨500, "No se pudo crear el post\n"⟩,
            evs ++ [Event.repoCreateCall r.ctx (mkPost r url),
              Event.logLine ("Error creando post: " ++ e)])
      | none =>
          (⟨201, encodePost (env.repoCreate r.ctx (mkPost r url)).1 ++ "\n"⟩,
            evs ++ [Event.repoCreateCall r.ctx (mkPost r url)]) := by
  unfold PostController.finishCreate PostUsecase.CreatePost
  cases h : (env.repoCreate r.ctx (mkPost r url)).2 <;> simp [h]

/-- Unfolding lemma: a non-multipart content type is rejected at once. -/
theorem Create_badContentType (env : Collaborators) (r : HttpRequest)
    (hct : goStartsWith r.contentType "multipart/form-data" = false) :
    PostController.Create env r =
      (⟨400, "Content-Type debe ser multipart/form-data\n"⟩, []) := by
  unfold PostController.Create
  simp [hct]

/-- Unfolding lemma: a multipart parse failure is terminal with the
parse error leaked into the body. -/
theorem Create_parseError (env : Collaborators) (r : HttpRequest) (e : String)
    (hct : goStartsWith r.contentType "multipart/form-data" = true)
    (hp : r.parseMultipartForm maxMultipartMemory = Except.error e) :
    PostController.Create env r =
      (⟨400, "Error parsing form: " ++ e ++ "\n"⟩,
        [Event.parseForm maxMultipartMemory]) := by
  unfold PostController.Create
  simp [hct, hp]

/-- Unfolding lemma: an empty `title` or `content` is terminal with a
fixed message. -/
theorem Create_emptyFields (env : Collaborators) (r : HttpRequest)
    (hct : goStartsWith r.contentType "multipart/form-data" = true)
    (hp : r.parseMultipartForm maxMultipartMemory = Except.ok ())
    (h : r.title = "" ∨ r.content = "") :
    PostController.Create env r =
      (⟨400, "title y content son obligatorios\n"⟩,
        [Event.parseForm maxMultipartMemory]) := by
  unfold PostController.Create
  simp only [hct, hp]
  rw [if_pos h]
  simp

/-- Unfolding lemma: with no image part the flow continues straight to
the persistence tail with an empty image URL. -/
theorem Create_noImage (env : Collaborators) (r : HttpRequest) (ef : String)
    (hct : goStartsWith r.contentType "multipart/form-data" = true)
    (hp : r.parseMultipartForm maxMultipartMemory = Except.ok ())
    (ht : r.title ≠ "") (hc : r.content ≠ "")
    (himg : r.formFileImage = Except.error ef) :
    PostController.Create env r =
      PostController.finishCreate env r "" [Event.parseForm maxMultipartMemory] := by
  unfold PostController.Create
  simp [hct, hp, ht, hc, himg]

/-- Unfolding lemma: with an image part and a failing upload the flow is
terminal with a 500 whose body carries the upload error. -/
theorem Create_uploadError (env : Collaborators) (r : HttpRequest)
    (f : FileData) (e : String)
    (hct : goStartsWith r.contentType "multipart/form-data" = true)
    (hp : r.parseMultipartForm maxMultipartMemory = Except.ok ())
    (ht : r.title ≠ "") (hc : r.content ≠ "")
    (himg : r.formFileImage = Except.ok f)
    (hup : env.upload r.ctx f (mkUploadParams r) = Except.error e) :
    PostController.Create env r =
      (⟨500, "Error subiendo imagen: " ++ e ++ "\n"⟩,
        [Event.parseForm maxMultipartMemory,
          Event.uploadCall r.ctx (mkUploadParams r)]) := by
  unfold PostController.Create
  simp [hct, hp, ht, hc, himg, hup]

/-- Unfolding lemma: with an image part and a successful upload the flow
continues to the persistence tail with the returned secure URL. -/
theorem Create_uploadOk (env : Collaborators) (r : HttpRequest)
    (f : FileData) (res : UploadResult)
    (hct : goStartsWith r.contentType "multipart/form-data" = true)
    (hp : r.parseMultipartForm maxMultipartMemory = Except.ok ())
    (ht : r.title ≠ "") (hc : r.content ≠ "")
    (himg : r.formFileImage = Except.ok f)
    (hup : env.upload r.ctx f (mkUploadParams r) = Except.ok res) :
    PostController.Create env r =
      PostController.finishCreate env r res.secureURL
        [Event.parseForm maxMultipartMemory,
          Event.uploadCall r.ctx (mkUploadParams r)] := by
  unfold PostController.Create
  simp [hct, hp, ht, hc, himg, hup]

/-- The persistence tail adds no `ParseMultipartForm` call. -/
theorem parseSizes_finishCreate (env : Collaborators) (r : HttpRequest)
    (url : String) (evs : List Event) :
    parseSizes (PostController.finishCreate env r url evs).2 =
      parseSizes evs := by
  rw [finishCreate_eq]
  cases h : (env.repoCreate r.ctx (mkPost r url)).2 <;>
    simp [parseSizes, List.filterMap_append]

/-- The persistence tail adds no upload call. -/
theorem uploadCtxs_finishCreate (env : Collaborators) (r : HttpRequest)
    (url : String) (evs : List Event) :
    uploadCtxs (PostController.finishCreate env r url evs).2 =
      uploadCtxs evs := by
  rw [finishCreate_eq]
  cases h : (env.repoCreate r.ctx (mkPost r url)).2 <;>
    simp [uploadCtxs, List.filterMap_append]

/-- The persistence tail makes exactly one repository `Create` call,
with the request's context. -/
theorem createCtxs_finishCreate (env : Collaborators) (r : HttpRequest)
    (url : String) (evs : List Event) :
    createCtxs (PostController.finishCreate env r url evs).2 =
      createCtxs evs ++ [r.ctx] := by
  rw [finishCreate_eq]
  cases h : (env.repoCreate r.ctx (mkPost r url)).2 <;>
    simp [createCtxs, List.filterMap_append]

/-- The persistence tail hands the repository exactly the controller-built
post. -/
theorem createdPosts_finishCreate (env : Collaborators) (r : HttpRequest)
    (url : String) (evs : List Event) :
    createdPosts (PostController.finishCreate env r url evs).2 =
      createdPosts evs ++ [mkPost r url] := by
  rw [finishCreate_eq]
  cases h : (env.repoCreate r.ctx (mkPost r url)).2 <;>
    simp [createdPosts, List.filterMap_append]

/-- The persistence tail logs the repository error detail exactly when the
repository fails. -/
theorem loggedLines_finishCreate (env : Collaborators) (r : HttpRequest)
    (url : String) (evs : List Event) :
    loggedLines (PostController.finishCreate env r url evs).2 =
      loggedLines evs ++
        (match (env.repoCreate r.ctx (mkPost r url)).2 with
        | some e => ["Error creando post: " ++ e]
        | none => []) := by
  rw [finishCreate_eq]
  cases h : (env.repoCreate r.ctx (mkPost r url)).2 <;>
    simp [loggedLines, List.filterMap_append]

/-- C1: for every create-post request whose title and content are
non-empty and which carries no image part, the Post the Create flow
constructs and hands to persistence has `ImageURL = ""`, `Likes = 0`,
`Dislikes = 0`, `IsFlagged = false`, and `CreatedAt = UpdatedAt`. -/
theorem C1_create_without_image (env : Collaborators) (r : HttpRequest)
    (ef : String)
    (hct : goStartsWith r.contentType "multipart/form-data" = true)
    (hp : r.parseMultipartForm maxMultipartMemory = Except.ok ())
    (ht : r.title ≠ "") (hc : r.content ≠ "")
    (himg : r.formFileImage = Except.error ef) :
    ∃ p : Post, createdPosts (PostController.Create env r).2 = [p] ∧
      p.imageURL = "" ∧ p.likes = 0 ∧ p.dislikes = 0 ∧
      p.isFlagged = false ∧ p.createdAt = p.updatedAt := by
  rw [Create_noImage env r ef hct hp ht hc himg]
  refine ⟨mkPost r "", ?_, rfl, rfl, rfl, rfl, rfl⟩
  rw [createdPosts_finishCreate]
  simp [createdPosts]

/-- Witness for C1 at a concrete request and concrete collaborators. -/
theorem C1_create_without_image_witness :
    ∃ p : Post,
      createdPosts (PostController.Create collabOK reqNoImage).2 = [p] ∧
      p.imageURL = "" ∧ p.likes = 0 ∧ p.dislikes = 0 ∧
      p.isFlagged = false ∧ p.createdAt = p.updatedAt :=
  C1_create_without_image collabOK reqNoImage "http: no such file"
    (by decide) rfl (by decide) (by decide) rfl

/-- C2: for every create-post request whose `title` or `content` field is
empty, the Create flow answers 400 and the repository's create operation
is never invoked. -/
theorem C2_empty_fields_rejected (env : Collaborators) (r : HttpRequest)
    (h : r.title = "" ∨ r.content = "") :
    (PostController.Create env r).1.status = 400 ∧
      createdPosts (PostController.Create env r).2 = [] := by
  cases hct : goStartsWith r.contentType "multipart/form-data" with
  | false =>
    rw [Create_badContentType env r hct]
    exact ⟨rfl, rfl⟩
  | true =>
    cases hp : r.parseMultipartForm maxMultipartMemory with
    | error e =>
      rw [Create_parseError env r e hct hp]
      exact ⟨rfl, rfl⟩
    | ok u =>
      cases u
      rw [Create_emptyFields env r hct hp h]
      exact ⟨rfl, rfl⟩

/-- Witness for C2 at a concrete request with an empty title. -/
theorem C2_empty_fields_rejected_witness :
    (PostController.Create collabOK reqEmptyTitle).1.status = 400 ∧
      createdPosts (PostController.Create collabOK reqEmptyTitle).2 = [] :=
  C2_empty_fields_rejected collabOK reqEmptyTitle (Or.inl rfl)

/-- C4: for every create-post request whose image upload fails, the
Create flow answers 500 and the persistence operation is never invoked. -/
theorem C4_upload_failure_no_persist (env : Collaborators)
    (r : HttpRequest) (f : FileData) (e : String)
    (hct : goStartsWith r.contentType "multipart/form-data" = true)
    (hp : r.parseMultipartForm maxMultipartMemory = Except.ok ())
    (ht : r.title ≠ "") (hc : r.content ≠ "")
    (himg : r.formFileImage = Except.ok f)
    (hup : env.upload r.ctx f (mkUploadParams r) = Except.error e) :
    (PostController.Create env r).1.status = 500 ∧
      createdPosts (PostController.Create env r).2 = [] := by
  rw [Create_uploadError env r f e hct hp ht hc himg hup]
  exact ⟨rfl, rfl⟩

/-- Witness for C4 at a concrete request and a failing uploader. -/
theorem C4_upload_failure_no_persist_witness :
    (PostController.Create collabUploadFullDisk reqWithImage).1.status = 500 ∧
      createdPosts (PostController.Create collabUploadFullDisk reqWithImage).2 =
        [] :=
  C4_upload_failure_no_persist collabUploadFullDisk reqWithImage
    ⟨"png-bytes"⟩ "disk full" (by decide) rfl (by decide) (by decide) rfl rfl

/-- C5: for every non-empty userID on which the user repository fails
with any error, GetUser returns the one fixed "usuario no encontrado"
failure; the repository's error detail does not influence the result. -/
theorem C5_getuser_collapses_repo_errors (env : Collaborators)
    (ctx : GoContext) (userID e : String) (hid : userID ≠ "")
    (h : env.getUserByID ctx userID = Except.error e) :
    (UserUsecase.GetUser env ctx userID).1 =
      Except.error "usuario no encontrado" := by
  unfold UserUsecase.GetUser
  rw [if_neg hid, h]

/-- Witness for C5 at a concrete id and a failing user repository. -/
theorem C5_getuser_collapses_repo_errors_witness :
    (UserUsecase.GetUser collabRepoFail GoContext.background "u1").1 =
      Except.error "usuario no encontrado" :=
  C5_getuser_collapses_repo_errors collabRepoFail GoContext.background
    "u1" "sql: no rows in result set" (by decide) rfl

/-- C6: for every call of GetUser with an empty userID, the result is the
fixed missing-parameter error and the repository lookup is never
invoked (the call trace is empty). -/
theorem C6_getuser_empty_id (env : Collaborators) (ctx : GoContext) :
    (UserUsecase.GetUser env ctx "").1 =
      Except.error "falta el par\xe1metro \x27id\x27" ∧
    userLookups (UserUsecase.GetUser env ctx "").2 = [] :=
  ⟨rfl, rfl⟩

/-- C7: CreatePost propagates a repository failure verbatim with a nil
post, and on success returns exactly the repository-populated post with a
nil error. -/
theorem C7_createpost_passthrough (env : Collaborators) (ctx : GoContext)
    (p : Post) :
    (∀ p' e, env.repoCreate ctx p = (p', some e) →
      (PostUsecase.CreatePost env ctx p).1 = Except.error e) ∧
    (∀ p', env.repoCreate ctx p = (p', none) →
      (PostUsecase.CreatePost env ctx p).1 = Except.ok p') := by
  constructor
  · intro p' e h
    simp [PostUsecase.CreatePost, h]
  · intro p' h
    simp [PostUsecase.CreatePost, h]

/-- Witness for C7: a failing and a succeeding repository, both at a
concrete post. -/
theorem C7_createpost_passthrough_witness :
    (PostUsecase.CreatePost collabRepoFail GoContext.background
        (mkPost reqNoImage "")).1 =
      Except.error "pq: connection refused" ∧
    (PostUsecase.CreatePost collabOK GoContext.background
        (mkPost reqNoImage "")).1 =
      Except.ok ⟨"p1", "Hello", "World", "", 0, 0, false, 42, 42⟩ :=
  ⟨(C7_createpost_passthrough collabRepoFail GoContext.background
      (mkPost reqNoImage "")).1 (mkPost reqNoImage "")
      "pq: connection refused" rfl,
    (C7_createpost_passthrough collabOK GoContext.background
      (mkPost reqNoImage "")).2
      ⟨"p1", "Hello", "World", "", 0, 0, false, 42, 42⟩ rfl⟩

/-- C9: for every multipart create-post request, the form is parsed with
the fixed 10 MiB max-memory argument (and with no other size), and a
parse failure is terminal with a 400 whose body carries the underlying
parse error message. -/
theorem C9_parse_size_and_error_leak (env : Collaborators)
    (r : HttpRequest)
    (hct : goStartsWith r.contentType "multipart/form-data" = true) :
    (parseSizes (PostController.Create env r).2 = [maxMultipartMemory] ∧
      maxMultipartMemory = 10 * 1024 * 1024) ∧
    ∀ e, r.parseMultipartForm maxMultipartMemory = Except.error e →
      (PostController.Create env r).1 =
        ⟨400, "Error parsing form: " ++ e ++ "\n"⟩ := by
  constructor
  · refine ⟨?_, by decide⟩
    cases hp : r.parseMultipartForm maxMultipartMemory with
    | error e =>
      rw [Create_parseError env r e hct hp]
      rfl
    | ok u =>
      cases u
      by_cases hf : r.title = "" ∨ r.content = ""
      · rw [Create_emptyFields env r hct hp hf]
        rfl
      · push_neg at hf
        cases himg : r.formFileImage with
        | error ef =>
          rw [Create_noImage env r ef hct hp hf.1 hf.2 himg,
            parseSizes_finishCreate]
          rfl
        | ok f =>
          cases hup : env.upload r.ctx f (mkUploadParams r) with
          | error e =>
            rw [Create_uploadError env r f e hct hp hf.1 hf.2 himg hup]
            rfl
          | ok res =>
            rw [Create_uploadOk env r f res hct hp hf.1 hf.2 himg hup,
              parseSizes_finishCreate]
            rfl
  · intro e hp
    rw [Create_parseError env r e hct hp]

/-- Witness for C9 at a concrete multipart request whose parse fails. -/
theorem C9_parse_size_and_error_leak_witness :
    parseSizes (PostController.Create collabOK reqBadParse).2 =
      [maxMultipartMemory] ∧
    (PostController.Create collabOK reqBadParse).1 =
      ⟨400, "Error parsing form: " ++ "multipart: NextPart: EOF" ++ "\n"⟩ :=
  ⟨(C9_parse_size_and_error_leak collabOK reqBadParse (by decide)).1.1,
    (C9_parse_size_and_error_leak collabOK reqBadParse (by decide)).2
      "multipart: NextPart: EOF" rfl⟩

/-- C10: any error from reading the `image` form part is silently
discarded: the upload step is skipped, the flow persists the Post with an
empty ImageURL, and the outcome does not depend on which retrieval error
occurred. -/
theorem C10_formfile_error_silently_discarded (env : Collaborators)
    (r : HttpRequest) (ef ef2 : String)
    (hct : goStartsWith r.contentType "multipart/form-data" = true)
    (hp : r.parseMultipartForm maxMultipartMemory = Except.ok ())
    (ht : r.title ≠ "") (hc : r.content ≠ "")
    (himg : r.formFileImage = Except.error ef) :
    uploadCtxs (PostController.Create env r).2 = [] ∧
      createdPosts (PostController.Create env r).2 = [mkPost r ""] ∧
      PostController.Create env
          ⟨r.contentType, r.parseMultipartForm, r.title, r.content,
            Except.error ef2, r.ctx, r.unixNow, r.now⟩ =
        PostController.Create env r := by
  refine ⟨?_, ?_, ?_⟩
  · rw [Create_noImage env r ef hct hp ht hc himg, uploadCtxs_finishCreate]
    rfl
  · rw [Create_noImage env r ef hct hp ht hc himg, createdPosts_finishCreate]
    rfl
  · rw [Create_noImage env r ef hct hp ht hc himg]
    rw [Create_noImage env
      ⟨r.contentType, r.parseMultipartForm, r.title, r.content,
        Except.error ef2, r.ctx, r.unixNow, r.now⟩ ef2 hct hp ht hc rfl]
    rfl

/-- Witness for C10 at a concrete request whose image part read fails. -/
theorem C10_formfile_error_silently_discarded_witness :
    uploadCtxs (PostController.Create collabOK reqNoImage).2 = [] ∧
      createdPosts (PostController.Create collabOK reqNoImage).2 =
        [mkPost reqNoImage ""] ∧
      PostController.Create collabOK
          ⟨reqNoImage.contentType, reqNoImage.parseMultipartForm,
            reqNoImage.title, reqNoImage.content,
            Except.error "multipart: malformed part", reqNoImage.ctx,
            reqNoImage.unixNow, reqNoImage.now⟩ =
        PostController.Create collabOK reqNoImage :=
  C10_formfile_error_silently_discarded collabOK reqNoImage
    "http: no such file" "multipart: malformed part" (by decide) rfl
    (by decide) (by decide) rfl

/-- C3 counterexample: two distinct upload errors produce two distinct
500 bodies — the upload failure detail is leaked to the caller, so the
multipart-parse failure is not the only exception. -/
theorem C3_counterexample :
    (PostController.Create collabUploadFullDisk reqWithImage).1.status =
        500 ∧
      (PostController.Create collabUploadTimeout reqWithImage).1.status =
        500 ∧
      (PostController.Create collabUploadFullDisk reqWithImage).1.body ≠
        (PostController.Create collabUploadTimeout reqWithImage).1.body := by
  refine ⟨?_, ?_, ?_⟩ <;> decide

/-- C3 amended: repository failures (GetAll, and the Create persistence
step on both of its reachable paths — no image part, or an image part
whose upload succeeded) are logged server-side with detail and answered
with a fixed generic body independent of the error; but an image-upload
failure is not logged and its 500 body carries the underlying upload
error message, just like the multipart-parse failure. -/
theorem C3_amended_error_exposure (env : Collaborators) (r : HttpRequest) :
    (∀ e, env.repoGetAll GoContext.background = Except.error e →
      (PostController.GetAll env r).1 =
        ⟨500, "\x7b\"error\":\"Error interno del servidor\"\x7d\n"⟩ ∧
      loggedLines (PostController.GetAll env r).2 =
        ["Error obteniendo posts: " ++ e]) ∧
    (∀ e url, goStartsWith r.contentType "multipart/form-data" = true →
      r.parseMultipartForm maxMultipartMemory = Except.ok () →
      r.title ≠ "" → r.content ≠ "" →
      ((∃ ef, r.formFileImage = Except.error ef ∧ url = "") ∨
        (∃ f res, r.formFileImage = Except.ok f ∧
          env.upload r.ctx f (mkUploadParams r) = Except.ok res ∧
          url = res.secureURL)) →
      (env.repoCreate r.ctx (mkPost r url)).2 = some e →
      (PostController.Create env r).1 =
        ⟨500, "No se pudo crear el post\n"⟩ ∧
      loggedLines (PostController.Create env r).2 =
        ["Error creando post: " ++ e]) ∧
    (∀ e f, goStartsWith r.contentType "multipart/form-data" = true →
      r.parseMultipartForm maxMultipartMemory = Except.ok () →
      r.title ≠ "" → r.content ≠ "" →
      r.formFileImage = Except.ok f →
      env.upload r.ctx f (mkUploadParams r) = Except.error e →
      (PostController.Create env r).1 =
        ⟨500, "Error subiendo imagen: " ++ e ++ "\n"⟩ ∧
      loggedLines (PostController.Create env r).2 = []) := by
  refine ⟨?_, ?_, ?_⟩
  · intro e h
    simp [PostController.GetAll, PostUsecase.GetAllPosts, h, loggedLines]
  · intro e url hct hp ht hc himg hrepo
    rcases himg with ⟨ef, himg, hurl⟩ | ⟨f, res, himg, hup, hurl⟩
    · subst hurl
      rw [Create_noImage env r ef hct hp ht hc himg]
      constructor
      · rw [finishCreate_eq, hrepo]
      · rw [loggedLines_finishCreate, hrepo]
        rfl
    · subst hurl
      rw [Create_uploadOk env r f res hct hp ht hc himg hup]
      constructor
      · rw [finishCreate_eq, hrepo]
      · rw [loggedLines_finishCreate, hrepo]
        rfl
  · intro e f hct hp ht hc himg hup
    rw [Create_uploadError env r f e hct hp ht hc himg hup]
    exact ⟨rfl, rfl⟩

/-- Witness for the amended C3: all failure shapes at concrete
collaborators and requests — a GetAll repository failure, a persistence
failure with no image part, a persistence failure after a successful
upload, and an upload failure. -/
theorem C3_amended_error_exposure_witness :
    ((PostController.GetAll collabRepoFail reqNoImage).1 =
        ⟨500, "\x7b\"error\":\"Error interno del servidor\"\x7d\n"⟩ ∧
      loggedLines (PostController.GetAll collabRepoFail reqNoImage).2 =
        ["Error obteniendo posts: " ++ "pq: connection refused"]) ∧
    ((PostController.Create collabRepoFail reqNoImage).1 =
        ⟨500, "No se pudo crear el post\n"⟩ ∧
      loggedLines (PostController.Create collabRepoFail reqNoImage).2 =
        ["Error creando post: " ++ "pq: connection refused"]) ∧
    ((PostController.Create collabRepoFail reqWithImage).1 =
        ⟨500, "No se pudo crear el post\n"⟩ ∧
      loggedLines (PostController.Create collabRepoFail reqWithImage).2 =
        ["Error creando post: " ++ "pq: connection refused"]) ∧
    ((PostController.Create collabUploadFullDisk reqWithImage).1 =
        ⟨500, "Error subiendo imagen: " ++ "disk full" ++ "\n"⟩ ∧
      loggedLines
          (PostController.Create collabUploadFullDisk reqWithImage).2 =
        []) :=
  ⟨(C3_amended_error_exposure collabRepoFail reqNoImage).1
      "pq: connection refused" rfl,
    (C3_amended_error_exposure collabRepoFail reqNoImage).2.1
      "pq: connection refused" "" (by decide) rfl
      (by decide) (by decide)
      (Or.inl ⟨"http: no such file", rfl, rfl⟩) rfl,
    (C3_amended_error_exposure collabRepoFail reqWithImage).2.1
      "pq: connection refused" "https://res.example/secure.png"
      (by decide) rfl (by decide) (by decide)
      (Or.inr ⟨⟨"png-bytes"⟩, ⟨"https://res.example/secure.png"⟩,
        rfl, rfl, rfl⟩) rfl,
    (C3_amended_error_exposure collabUploadFullDisk reqWithImage).2.2
      "disk full" ⟨"png-bytes"⟩ (by decide) rfl (by decide) (by decide)
      rfl rfl⟩

/-- C8 counterexample: the GetAll flow hands the repository a fresh
background context even though the request carries its own distinct
context. -/
theorem C8_counterexample :
    getAllCtxs (PostController.GetAll collabOK reqNoImage).2 =
        [GoContext.background] ∧
      reqNoImage.ctx ≠ GoContext.background := by
  constructor <;> decide

/-- C8 amended: in the Create flow every upload call and every
persistence call receives the request's own context, while the GetAll
flow hands its persistence call a fresh background context instead of
the request's. -/
theorem C8_amended_context_propagation (env : Collaborators)
    (r : HttpRequest) :
    ((uploadCtxs (PostController.Create env r).2).all
        fun c => c == r.ctx) = true ∧
    ((createCtxs (PostController.Create env r).2).all
        fun c => c == r.ctx) = true ∧
    getAllCtxs (PostController.GetAll env r).2 = [GoContext.background] := by
  refine ⟨?_, ?_, ?_⟩
  · cases hct : goStartsWith r.contentType "multipart/form-data" with
    | false =>
      rw [Create_badContentType env r hct]
      rfl
    | true =>
      cases hp : r.parseMultipartForm maxMultipartMemory with
      | error e =>
        rw [Create_parseError env r e hct hp]
        rfl
      | ok u =>
        cases u
        by_cases hf : r.title = "" ∨ r.content = ""
        · rw [Create_emptyFields env r hct hp hf]
          rfl
        · push_neg at hf
          cases himg : r.formFileImage with
          | error ef =>
            rw [Create_noImage env r ef hct hp hf.1 hf.2 himg,
              uploadCtxs_finishCreate]
            rfl
          | ok f =>
            cases hup : env.upload r.ctx f (mkUploadParams r) with
            | error e =>
              rw [Create_uploadError env r f e hct hp hf.1 hf.2 himg hup]
              simp [uploadCtxs]
            | ok res =>
              rw [Create_uploadOk env r f res hct hp hf.1 hf.2 himg hup,
                uploadCtxs_finishCreate]
              simp [uploadCtxs]
  · cases hct : goStartsWith r.contentType "multipart/form-data" with
    | false =>
      rw [Create_badContentType env r hct]
      rfl
    | true =>
      cases hp : r.parseMultipartForm maxMultipartMemory with
      | error e =>
        rw [Create_parseError env r e hct hp]
        rfl
      | ok u =>
        cases u
        by_cases hf : r.title = "" ∨ r.content = ""
        · rw [Create_emptyFields env r hct hp hf]
          rfl
        · push_neg at hf
          cases himg : r.formFileImage with
          | error ef =>
            rw [Create_noImage env r ef hct hp hf.1 hf.2 himg,
              createCtxs_finishCreate]
            simp [createCtxs]
          | ok f =>
            cases hup : env.upload r.ctx f (mkUploadParams r) with
            | error e =>
              rw [Create_uploadError env r f e hct hp hf.1 hf.2 himg hup]
              rfl
            | ok res =>
              rw [Create_uploadOk env r f res hct hp hf.1 hf.2 himg hup,
                createCtxs_finishCreate]
              simp [createCtxs]
  · unfold PostController.GetAll PostUsecase.GetAllPosts
    cases h : env.repoGetAll GoContext.background <;> simp [getAllCtxs, h]
